import Mathlib

/-!
Shallow embedding of the data-access core of the restaurant order tracker
(`src/db.py`, class `DatabaseManager`), together with the one UI guard that
participates in delivery-address validation (`src/ui/main_app.py`,
`_confirm_create_order`).

Modelling choices:
  * The MySQL session is a pair of database snapshots: `committed` (what the
    server has durably committed) and `pending` (the state the open
    transaction sees, i.e. committed data plus this connection's own
    uncommitted writes).  Every read in `db.py` goes through the single
    connection, so reads observe `pending`.  `commit` copies `pending` into
    `committed`; the code never calls `rollback`, so a Python exception
    leaves `pending` untouched.
  * Each write statement issued to the store is recorded in a `log`, so that
    "the write is never issued to the store" is a statement about the log.
  * A single SQL statement is atomic: if its constraint checks fail the
    pending state is unchanged and the MySQL error surfaces in Python.
  * `DECIMAL(10,2)` prices and totals are modelled as `Int` (fixed-point,
    scale irrelevant to the claims); quantities as `Int`.
  * `bcrypt.hashpw` is modelled symbolically: its result is the constructor
    `StoredSecret.hashed pw salt`, never the plain secret.  The random salt
    produced by `bcrypt.gensalt()` is passed in explicitly.
  * `self.current_user_id` is passed explicitly to `create_order`.
  * `_ensure_schema` guarantees the `service_type` column exists, so only
    the modern branch of `create_order` is embedded.
-/

namespace Restaurant

/-- Symbolic model of a secret as persisted in `Users.password_hash`:
either the plain secret itself (never produced by the code under
verification) or the bcrypt hash of a secret with a given salt. -/
inductive StoredSecret where
  | plain (s : String)
  | hashed (pw : String) (salt : Nat)
deriving Repr, DecidableEq

/-- Row of the `Users` table. -/
structure UserRow where
  user_id : Nat
  username : String
  password_hash : StoredSecret
  role : String
deriving Repr, DecidableEq

/-- Row of the `MenuCategories` table. -/
structure CategoryRow where
  category_id : Nat
  name : String
deriving Repr, DecidableEq

/-- Row of the `MenuItems` table. -/
structure MenuItemRow where
  item_id : Nat
  category_id : Nat
  name : String
  price : Int
  is_active : Bool
deriving Repr, DecidableEq

/-- Row of the `Orders` table (the columns the claims touch). -/
structure OrderRow where
  order_id : Nat
  customer_name : String
  customer_contact : String
  status_code : String
  user_id : Option Nat
  notes : String
  service_type : String
  delivery_address : Option String
deriving Repr, DecidableEq

/-- Row of the `OrderItems` table, with the `price_at_order` snapshot. -/
structure OrderItemRow where
  order_id : Nat
  item_id : Nat
  quantity : Int
  price_at_order : Int
deriving Repr, DecidableEq

/-- One database snapshot: the five tables plus `AUTO_INCREMENT` counters. -/
structure DB where
  users : List UserRow
  categories : List CategoryRow
  menu_items : List MenuItemRow
  orders : List OrderRow
  order_items : List OrderItemRow
  next_user_id : Nat
  next_category_id : Nat
  next_item_id : Nat
  next_order_id : Nat
deriving Repr, DecidableEq

/-- A write statement issued by the Python layer to the MySQL store. -/
inductive WriteStmt where
  | insertUser (username : String) (pw_hash : StoredSecret) (role : String)
  | insertCategory (name : String)
  | deleteCategoryStmt (category_id : Nat)
  | insertMenuItem (name : String) (price : Int) (category_id : Nat) (is_active : Bool)
  | updateMenuItemStmt (item_id : Nat) (name : String) (price : Int) (category_id : Nat) (is_active : Bool)
  | deleteMenuItemStmt (item_id : Nat)
  | insertOrder (customer_name customer_contact status_code : String) (user_id : Option Nat)
      (notes service_type : String) (delivery_address : Option String)
  | insertOrderItem (order_id item_id : Nat) (quantity price_at_order : Int)
  | deleteOrderItemsStmt (order_id : Nat)
  | updateOrderStatusStmt (order_id : Nat) (status_code : String)
deriving Repr, DecidableEq

/-- Errors surfacing in the Python layer: `ValueError`, `PermissionError`,
`RuntimeError`, an uncaught MySQL integrity error carrying its errno, and a
MySQL `CHECK`-constraint violation (errno 3819, not an errno-1062
`IntegrityError`, hence re-raised by the `except` clauses in `db.py`). -/
inductive DbError where
  | valueError (msg : String)
  | permissionError (msg : String)
  | runtimeError (msg : String)
  | integrityError (errno : Nat)
  | checkViolation (what : String)
deriving Repr, DecidableEq

/-- The connection state: committed snapshot, the open transaction's view,
and the log of write statements issued so far. -/
structure Session where
  committed : DB
  pending : DB
  log : List WriteStmt
deriving Repr, DecidableEq

/-- Model of COMMIT: the pending transaction state becomes durable. -/
def Session.commit (s : Session) : Session :=
  { s with committed := s.pending }

/- ----------------------------------------------------------------------
Store layer: execution of single SQL write statements with their
constraint checks (unique keys, CHECK constraints, RESTRICT foreign keys).
---------------------------------------------------------------------- -/

/-- Execute `INSERT INTO Users ...` with the `role` ENUM check and the
unique-username constraint. -/
def execInsertUser (db : DB) (username : String) (pw_hash : StoredSecret) (role : String) :
    Except DbError DB :=
  if !(role == "admin" || role == "user") then .error (.integrityError 1265)
  else if db.users.any (fun u => u.username == username) then .error (.integrityError 1062)
  else .ok { db with
    users := db.users ++ [⟨db.next_user_id, username, pw_hash, role⟩],
    next_user_id := db.next_user_id + 1 }

/-- Execute `INSERT INTO MenuCategories ...` with the unique-name constraint. -/
def execInsertCategory (db : DB) (name : String) : Except DbError DB :=
  if db.categories.any (fun c => c.name == name) then .error (.integrityError 1062)
  else .ok { db with
    categories := db.categories ++ [⟨db.next_category_id, name⟩],
    next_category_id := db.next_category_id + 1 }

/-- Execute `DELETE FROM MenuCategories WHERE category_id=...`; fails with
errno 1451 when a deleted row is still referenced by a menu item
(`ON DELETE RESTRICT`). -/
def execDeleteCategory (db : DB) (category_id : Nat) : Except DbError DB :=
  if (db.categories.any (fun c => c.category_id == category_id)) &&
     (db.menu_items.any (fun m => m.category_id == category_id)) then
    .error (.integrityError 1451)
  else .ok { db with categories := db.categories.filter (fun c => c.category_id != category_id) }

/-- Execute `INSERT INTO MenuItems ...` with the `CHECK (price >= 0)`
constraint, the unique-name constraint and the category foreign key. -/
def execInsertMenuItem (db : DB) (name : String) (price : Int) (category_id : Nat)
    (is_active : Bool) : Except DbError DB :=
  if price < 0 then .error (.checkViolation "price")
  else if db.menu_items.any (fun m => m.name == name) then .error (.integrityError 1062)
  else if !(db.categories.any (fun c => c.category_id == category_id)) then
    .error (.integrityError 1452)
  else .ok { db with
    menu_items := db.menu_items ++ [⟨db.next_item_id, category_id, name, price, is_active⟩],
    next_item_id := db.next_item_id + 1 }

/-- Execute `UPDATE MenuItems SET ... WHERE item_id=...`; constraint checks
apply only when a row actually matches (zero matched rows succeed). -/
def execUpdateMenuItem (db : DB) (item_id : Nat) (name : String) (price : Int)
    (category_id : Nat) (is_active : Bool) : Except DbError DB :=
  if db.menu_items.any (fun m => m.item_id == item_id) then
    if price < 0 then .error (.checkViolation "price")
    else if db.menu_items.any (fun m => m.item_id != item_id && m.name == name) then
      .error (.integrityError 1062)
    else if !(db.categories.any (fun c => c.category_id == category_id)) then
      .error (.integrityError 1452)
    else .ok { db with
      menu_items := db.menu_items.map (fun m =>
        if m.item_id == item_id then
          { m with name := name, price := price, category_id := category_id,
                   is_active := is_active }
        else m) }
  else .ok db

/-- Execute `DELETE FROM MenuItems WHERE item_id=...`; fails with errno 1451
when a deleted row is still referenced by an order line. -/
def execDeleteMenuItem (db : DB) (item_id : Nat) : Except DbError DB :=
  if (db.menu_items.any (fun m => m.item_id == item_id)) &&
     (db.order_items.any (fun oi => oi.item_id == item_id)) then
    .error (.integrityError 1451)
  else .ok { db with menu_items := db.menu_items.filter (fun m => m.item_id != item_id) }

/-- Execute `INSERT INTO Orders ...` (the values written by the code always
satisfy the status foreign key, so no failure mode is reachable here). -/
def execInsertOrder (db : DB) (customer_name customer_contact status_code : String)
    (user_id : Option Nat) (notes service_type : String)
    (delivery_address : Option String) : DB :=
  { db with
    orders := db.orders ++
      [⟨db.next_order_id, customer_name, customer_contact, status_code, user_id,
        notes, service_type, delivery_address⟩],
    next_order_id := db.next_order_id + 1 }

/-- Execute `INSERT INTO OrderItems ...` with `CHECK (quantity > 0)` and the
composite primary key `(order_id, item_id)`. -/
def execInsertOrderItem (db : DB) (order_id item_id : Nat) (quantity price_at_order : Int) :
    Except DbError DB :=
  if quantity ≤ 0 then .error (.checkViolation "quantity")
  else if db.order_items.any (fun oi => oi.order_id == order_id && oi.item_id == item_id) then
    .error (.integrityError 1062)
  else .ok { db with order_items := db.order_items ++ [⟨order_id, item_id, quantity, price_at_order⟩] }

/-- Execute `DELETE FROM OrderItems WHERE order_id=...` (cannot fail). -/
def execDeleteOrderItems (db : DB) (order_id : Nat) : DB :=
  { db with order_items := db.order_items.filter (fun oi => oi.order_id != order_id) }

/-- Execute `UPDATE Orders SET status_code=... WHERE order_id=...`. -/
def execUpdateOrderStatus (db : DB) (order_id : Nat) (status_code : String) : DB :=
  { db with orders := db.orders.map (fun o =>
      if o.order_id == order_id then { o with status_code := status_code } else o) }

/- ----------------------------------------------------------------------
Python layer: the `DatabaseManager` methods the claims are about.
---------------------------------------------------------------------- -/

/-- Embedding of `DatabaseManager.STATUS_FLOW` (a dict from status code to
the list of legal next statuses). -/
def STATUS_FLOW (status_code : String) : Option (List String) :=
  if status_code == "RECEIVED" then some ["IN_PROGRESS", "CANCELED"]
  else if status_code == "IN_PROGRESS" then some ["READY", "CANCELED"]
  else if status_code == "READY" then some ["COMPLETED", "CANCELED"]
  else if status_code == "COMPLETED" then some []
  else if status_code == "CANCELED" then some []
  else none

/-- Embedding of `DatabaseManager.get_next_statuses`
(`self.STATUS_FLOW.get(current_status, [])`). -/
def get_next_statuses (current_status : String) : List String :=
  (STATUS_FLOW current_status).getD []

/-- Embedding of `DatabaseManager.create_user`.  The bcrypt salt drawn by
`bcrypt.gensalt()` is passed in explicitly. -/
def create_user (s : Session) (username password : String) (role : String) (salt : Nat) :
    Except DbError Nat × Session :=
  if role == "admin" then
    (.error (.valueError "Creating additional admins is not allowed."), s)
  else
    let pw_hash : StoredSecret := .hashed password salt
    let s1 : Session := { s with log := s.log ++ [.insertUser username pw_hash role] }
    match execInsertUser s.pending username pw_hash role with
    | .error e =>
      (.error (if e == .integrityError 1062 then .valueError "USERNAME_TAKEN" else e), s1)
    | .ok db => (.ok s.pending.next_user_id, Session.commit { s1 with pending := db })

/-- Embedding of `DatabaseManager.add_category`. -/
def add_category (s : Session) (name : String) : Except DbError Nat × Session :=
  let s1 : Session := { s with log := s.log ++ [.insertCategory name] }
  match execInsertCategory s.pending name with
  | .error e =>
    (.error (if e == .integrityError 1062 then .valueError "CATEGORY_EXISTS" else e), s1)
  | .ok db => (.ok s.pending.next_category_id, Session.commit { s1 with pending := db })

/-- Embedding of `DatabaseManager.delete_category`. -/
def delete_category (s : Session) (category_id : Nat) : Except DbError Unit × Session :=
  let s1 : Session := { s with log := s.log ++ [.deleteCategoryStmt category_id] }
  match execDeleteCategory s.pending category_id with
  | .error e =>
    (.error (if e == .integrityError 1451 then .valueError "CATEGORY_IN_USE" else e), s1)
  | .ok db => (.ok (), Session.commit { s1 with pending := db })

/-- Embedding of `DatabaseManager.add_menu_item`. -/
def add_menu_item (s : Session) (name : String) (price : Int) (category_id : Nat)
    (is_active : Bool) : Except DbError Nat × Session :=
  let s1 : Session := { s with log := s.log ++ [.insertMenuItem name price category_id is_active] }
  match execInsertMenuItem s.pending name price category_id is_active with
  | .error e =>
    (.error (if e == .integrityError 1062 then .valueError "NAME_TAKEN" else e), s1)
  | .ok db => (.ok s.pending.next_item_id, Session.commit { s1 with pending := db })

/-- Embedding of `DatabaseManager.update_menu_item`. -/
def update_menu_item (s : Session) (item_id : Nat) (new_name : String) (new_price : Int)
    (new_category_id : Nat) (is_active : Bool) : Except DbError Unit × Session :=
  let s1 : Session :=
    { s with log := s.log ++ [.updateMenuItemStmt item_id new_name new_price new_category_id is_active] }
  match execUpdateMenuItem s.pending item_id new_name new_price new_category_id is_active with
  | .error e =>
    (.error (if e == .integrityError 1062 then .valueError "NAME_TAKEN" else e), s1)
  | .ok db => (.ok (), Session.commit { s1 with pending := db })

/-- Embedding of `DatabaseManager.delete_menu_item_by_id`. -/
def delete_menu_item_by_id (s : Session) (item_id : Nat) : Except DbError Unit × Session :=
  let s1 : Session := { s with log := s.log ++ [.deleteMenuItemStmt item_id] }
  match execDeleteMenuItem s.pending item_id with
  | .error e =>
    (.error (if e == .integrityError 1451 then .valueError "ITEM_IN_USE" else e), s1)
  | .ok db => (.ok (), Session.commit { s1 with pending := db })

/-- Embedding of the per-line loop shared by `create_order` and
`replace_order_items`: `SELECT price FROM MenuItems WHERE item_id=...`,
`ValueError` if absent, else `INSERT INTO OrderItems` with the price
snapshot.  On failure the session accumulated so far is returned. -/
def insert_order_lines : List (Nat × Int) → Nat → Session → Option DbError × Session
  | [], _, s => (none, s)
  | (item_id, qty) :: rest, order_id, s =>
    match s.pending.menu_items.find? (fun m => m.item_id == item_id) with
    | none => (some (.valueError ("Menu item " ++ toString item_id ++ " not found")), s)
    | some mi =>
      match execInsertOrderItem s.pending order_id item_id qty mi.price with
      | .error e => (some e, s)
      | .ok db =>
        insert_order_lines rest order_id
          { s with pending := db, log := s.log ++ [.insertOrderItem order_id item_id qty mi.price] }

/-- Embedding of `DatabaseManager.create_order` (modern-schema branch;
`self.current_user_id` passed explicitly).  Mirrors the Python control
flow: the `Orders` row is inserted before the per-line loop, and `commit`
runs only if every line succeeded — a failing line leaves the inserted
rows uncommitted in the open transaction (no rollback is issued). -/
def create_order (s : Session) (current_user_id : Option Nat)
    (customer_name customer_contact : String) (items : List (Nat × Int))
    (notes : String) (service_type : Option String) (delivery_address : Option String) :
    Except DbError Nat × Session :=
  match current_user_id with
  | none => (.error (.runtimeError "No current user set before creating orders."), s)
  | some uid =>
    let stype := match service_type with
      | none => "TAKEAWAY"
      | some t => if t == "" then "TAKEAWAY" else t
    let order_id := s.pending.next_order_id
    let s1 : Session :=
      { s with
        pending := execInsertOrder s.pending customer_name customer_contact "RECEIVED"
          (some uid) notes stype delivery_address,
        log := s.log ++ [.insertOrder customer_name customer_contact "RECEIVED" (some uid)
          notes stype delivery_address] }
    match insert_order_lines items order_id s1 with
    | (some e, s2) => (.error e, s2)
    | (none, s2) => (.ok order_id, s2.commit)

/-- Embedding of `DatabaseManager.replace_order_items`. -/
def replace_order_items (s : Session) (order_id : Nat) (items : List (Nat × Int))
    (requester_user_id : Nat) : Except DbError Unit × Session :=
  match s.pending.orders.find? (fun o => o.order_id == order_id) with
  | none => (.error (.valueError "ORDER_NOT_FOUND"), s)
  | some o =>
    if o.user_id != some requester_user_id then
      (.error (.permissionError "You can edit only your own orders."), s)
    else if o.status_code != "RECEIVED" then
      (.error (.valueError "ONLY_RECEIVED_EDITABLE"), s)
    else
      let s1 : Session :=
        { s with pending := execDeleteOrderItems s.pending order_id,
                 log := s.log ++ [.deleteOrderItemsStmt order_id] }
      match insert_order_lines items order_id s1 with
      | (some e, s2) => (.error e, s2)
      | (none, s2) => (.ok (), s2.commit)

/-- Embedding of `DatabaseManager.update_order_status`. -/
def update_order_status (s : Session) (order_id : Nat) (new_status : String) :
    Except DbError Unit × Session :=
  match s.pending.orders.find? (fun o => o.order_id == order_id) with
  | none => (.error (.valueError "ORDER_NOT_FOUND"), s)
  | some o =>
    let check : Option DbError :=
      if new_status == "CANCELED" then
        if o.status_code == "COMPLETED" || o.status_code == "CANCELED" then
          some (.valueError "INVALID_TRANSITION")
        else none
      else if !((get_next_statuses o.status_code).contains new_status) then
        some (.valueError "INVALID_TRANSITION")
      else none
    match check with
    | some e => (.error e, s)
    | none =>
      (.ok (), Session.commit
        { s with pending := execUpdateOrderStatus s.pending order_id new_status,
                 log := s.log ++ [.updateOrderStatusStmt order_id new_status] })

/-- Embedding of `DatabaseManager.cancel_order_by_user`. -/
def cancel_order_by_user (s : Session) (order_id : Nat) (requester_user_id : Nat) :
    Except DbError Unit × Session :=
  match s.pending.orders.find? (fun o => o.order_id == order_id) with
  | none => (.error (.valueError "ORDER_NOT_FOUND"), s)
  | some o =>
    if o.user_id != some requester_user_id then
      (.error (.permissionError "You can cancel only your own orders."), s)
    else if !(o.status_code == "RECEIVED" || o.status_code == "IN_PROGRESS" ||
              o.status_code == "READY") then
      (.error (.valueError "CANNOT_CANCEL_THIS_STATUS"), s)
    else
      (.ok (), Session.commit
        { s with pending := execUpdateOrderStatus s.pending order_id "CANCELED",
                 log := s.log ++ [.updateOrderStatusStmt order_id "CANCELED"] })

/- ----------------------------------------------------------------------
Read side: `get_order_items` and the `v_order_totals` view.
---------------------------------------------------------------------- -/

/-- Kernel-computable lexicographic order on character lists (by code
point), used to model `ORDER BY mi.name`. -/
def charListLe : List Char → List Char → Bool
  | [], _ => true
  | _ :: _, [] => false
  | a :: as, b :: bs =>
    if a.toNat < b.toNat then true
    else if b.toNat < a.toNat then false
    else charListLe as bs

/-- Lexicographic order on strings via their character lists. -/
def strLe (a b : String) : Bool :=
  charListLe a.data b.data

/-- One returned row of `get_order_items`:
`(name, quantity, price_at_order, subtotal)`. -/
abbrev ItemLine := String × Int × Int × Int

/-- Insert a row into a name-sorted list (model of `ORDER BY mi.name`). -/
def insertRowByName (r : ItemLine) : List ItemLine → List ItemLine
  | [] => [r]
  | x :: xs => if strLe r.1 x.1 then r :: x :: xs else x :: insertRowByName r xs

/-- Insertion sort by item name (model of `ORDER BY mi.name`). -/
def sortRowsByName : List ItemLine → List ItemLine
  | [] => []
  | x :: xs => insertRowByName x (sortRowsByName xs)

/-- Embedding of `DatabaseManager.get_order_items`: the inner join of the
order's lines with `MenuItems`, ordered by item name, each row carrying
`quantity * price_at_order` as subtotal; the returned total is the Python
`sum(x[3] for x in items)` over the returned rows. -/
def get_order_items (db : DB) (order_id : Nat) : List ItemLine × Int :=
  let rows : List ItemLine :=
    (db.order_items.filter (fun oi => oi.order_id == order_id)).flatMap (fun oi =>
      (db.menu_items.filter (fun mi => mi.item_id == oi.item_id)).map (fun mi =>
        (mi.name, oi.quantity, oi.price_at_order, oi.quantity * oi.price_at_order)))
  let sorted := sortRowsByName rows
  (sorted, (sorted.map (fun r => r.2.2.2)).sum)

/-- Embedding of the `v_order_totals` view: one row per order, whose total
is `COALESCE(SUM(oi.quantity * oi.price_at_order), 0)` over the order's
lines. -/
def v_order_totals (db : DB) : List (Nat × Int) :=
  db.orders.map (fun o =>
    (o.order_id,
      ((db.order_items.filter (fun oi => oi.order_id == o.order_id)).map
        (fun oi => oi.quantity * oi.price_at_order)).sum))

/-- The sum of `quantity * price_at_order` over an order's current line
items — the quantity the spec says every reported total must equal. -/
def line_total (db : DB) (order_id : Nat) : Int :=
  ((db.order_items.filter (fun oi => oi.order_id == order_id)).map
    (fun oi => oi.quantity * oi.price_at_order)).sum

/- ----------------------------------------------------------------------
UI guard: the only delivery-address validation in the repository
(`MainApp._confirm_create_order` in `src/ui/main_app.py`).
---------------------------------------------------------------------- -/

/-- Drop leading whitespace characters from a character list. -/
def dropLeadingWs : List Char → List Char
  | [] => []
  | c :: cs => if c.isWhitespace then dropLeadingWs cs else c :: cs

/-- Kernel-computable model of the Python `str.strip()` used by the UI:
drop whitespace from both ends. -/
def pyStrip (s : String) : String :=
  ⟨(dropLeadingWs (dropLeadingWs s.data).reverse).reverse⟩

/-- Outcome of the UI checkout handler. -/
inductive UiOutcome where
  | addressRequired
  | orderFailed (e : DbError)
  | success (order_id : Nat)
deriving Repr, DecidableEq

/-- Embedding of `MainApp._confirm_create_order` (modern branch): strips
the address, shows the "Address required" error and returns without
touching the database when service type is DELIVERY and the stripped
address is empty; otherwise calls `create_order` with `addr or None`. -/
def confirm_create_order (s : Session) (current_user_id : Option Nat)
    (cart_items : List (Nat × Int)) (customer stype addr_input : String) :
    UiOutcome × Session :=
  let addr := pyStrip addr_input
  if stype == "DELIVERY" && addr == "" then (.addressRequired, s)
  else
    match create_order s current_user_id customer "" cart_items "" (some stype)
      (if addr == "" then none else some addr) with
    | (.error e, s2) => (.orderFailed e, s2)
    | (.ok oid, s2) => (.success oid, s2)

/-- The fixed five-value status vocabulary of `OrderStatusRef`. -/
def canonical_status (st : String) : Prop :=
  st = "RECEIVED" ∨ st = "IN_PROGRESS" ∨ st = "READY" ∨ st = "COMPLETED" ∨ st = "CANCELED"

instance (st : String) : Decidable (canonical_status st) := by
  unfold canonical_status
  infer_instance

/- ----------------------------------------------------------------------
Concrete states used to evaluate the operations at specific inputs.
---------------------------------------------------------------------- -/

/-- A small committed database: one user, one category, one menu item, no
orders yet. -/
def sampleDB : DB :=
  { users := [⟨1, "alice", .hashed "pw" 0, "user"⟩],
    categories := [⟨1, "General"⟩],
    menu_items := [⟨1, 1, "Pizza", 790, true⟩],
    orders := [],
    order_items := [],
    next_user_id := 2, next_category_id := 2, next_item_id := 2, next_order_id := 1 }

/-- A clean session over `sampleDB` (no open transaction work, empty log). -/
def sampleSession : Session := ⟨sampleDB, sampleDB, []⟩

/-- A database with two users, two menu items and one RECEIVED order of
user 1 holding two snapshotted lines. -/
def orderDB : DB :=
  { users := [⟨1, "alice", .hashed "pw" 0, "user"⟩, ⟨2, "bob", .hashed "pw2" 0, "user"⟩],
    categories := [⟨1, "General"⟩],
    menu_items := [⟨1, 1, "Pizza", 790, true⟩, ⟨2, 1, "Cola", 180, true⟩],
    orders := [⟨1, "Alice", "", "RECEIVED", some 1, "", "TAKEAWAY", none⟩],
    order_items := [⟨1, 1, 2, 790⟩, ⟨1, 2, 1, 180⟩],
    next_user_id := 3, next_category_id := 2, next_item_id := 3, next_order_id := 2 }

/-- A clean session over `orderDB`. -/
def orderSession : Session := ⟨orderDB, orderDB, []⟩

/-- The single order row of `orderDB`. -/
def orderRow1 : OrderRow := ⟨1, "Alice", "", "RECEIVED", some 1, "", "TAKEAWAY", none⟩

/-- Like `orderDB` but the stored status of order 1 is the out-of-vocabulary
code WEIRD (reachable only in a pre-existing database, never created by the
code itself). -/
def weirdDB : DB :=
  { orderDB with orders := [⟨1, "Alice", "", "WEIRD", some 1, "", "TAKEAWAY", none⟩] }

/-- A clean session over `weirdDB`. -/
def weirdSession : Session := ⟨weirdDB, weirdDB, []⟩

/-- The single order row of `weirdDB`. -/
def weirdRow1 : OrderRow := ⟨1, "Alice", "", "WEIRD", some 1, "", "TAKEAWAY", none⟩

/- ----------------------------------------------------------------------
Theorems.
---------------------------------------------------------------------- -/

/-- A successful `UPDATE MenuItems ...` never touches the `OrderItems`
table. -/
theorem execUpdateMenuItem_ok_order_items {db : DB} {item_id : Nat} {name : String}
    {price : Int} {category_id : Nat} {is_active : Bool} {db2 : DB}
    (h : execUpdateMenuItem db item_id name price category_id is_active = .ok db2) :
    db2.order_items = db.order_items := by
  unfold execUpdateMenuItem at h
  split_ifs at h <;> first
    | exact Except.noConfusion h
    | (injection h with h; subst h; rfl)

/-- C3: `create_order` is NOT atomic on an unknown item id.  On the sample
state, ordering item 1 (exists) and item 99 (absent) raises the
"Menu item 99 not found" error, yet the open transaction still holds the
inserted `Orders` row and the first `OrderItems` row (the code never rolls
back); they are invisible in the committed store only until the next
unrelated commit — here an `add_category` call — makes the orphan order
durable. -/
theorem C3_create_order_not_atomic_on_unknown_item :
    (create_order sampleSession (some 1) "Bob" "" [(1, 2), (99, 1)] "" none none).1
      = .error (.valueError "Menu item 99 not found") ∧
    (create_order sampleSession (some 1) "Bob" "" [(1, 2), (99, 1)] "" none none).2.pending.orders
      = [⟨1, "Bob", "", "RECEIVED", some 1, "", "TAKEAWAY", none⟩] ∧
    (create_order sampleSession (some 1) "Bob" "" [(1, 2), (99, 1)] "" none none).2.pending.order_items
      = [⟨1, 1, 2, 790⟩] ∧
    (create_order sampleSession (some 1) "Bob" "" [(1, 2), (99, 1)] "" none none).2.committed.orders
      = [] ∧
    (add_category
      (create_order sampleSession (some 1) "Bob" "" [(1, 2), (99, 1)] "" none none).2
      "Drinks").2.committed.orders
      = [⟨1, "Bob", "", "RECEIVED", some 1, "", "TAKEAWAY", none⟩] :=
  ⟨rfl, rfl, rfl, rfl, rfl⟩

/-- C4 counterexample: called directly with service type DELIVERY and no
address, `create_order` performs no validation at all — it succeeds and a
DELIVERY order row with a NULL address is committed. -/
theorem C4_core_accepts_empty_delivery_address :
    (create_order sampleSession (some 1) "Bob" "" [] "" (some "DELIVERY") none).1 = .ok 1 ∧
    (create_order sampleSession (some 1) "Bob" "" [] "" (some "DELIVERY") none).2.committed.orders
      = [⟨1, "Bob", "", "RECEIVED", some 1, "", "DELIVERY", none⟩] :=
  ⟨rfl, rfl⟩

/-- C4 (amended): the empty-address rejection for DELIVERY happens only in
the UI checkout handler, which returns without touching the store when the
stripped address is empty; the core `create_order` itself performs no
delivery-address validation and persists the order (with a NULL address)
when called directly. -/
theorem C4_delivery_address_checked_only_in_ui (s : Session) (uid : Option Nat)
    (cart : List (Nat × Int)) (customer addr_input : String)
    (h : pyStrip addr_input = "") (u : Nat) (cname ccontact notes : String) :
    confirm_create_order s uid cart customer "DELIVERY" addr_input = (.addressRequired, s) ∧
    (create_order s (some u) cname ccontact [] notes (some "DELIVERY") none).1
      = .ok s.pending.next_order_id ∧
    (create_order s (some u) cname ccontact [] notes (some "DELIVERY") none).2.committed.orders
      = s.pending.orders ++ [⟨s.pending.next_order_id, cname, ccontact, "RECEIVED", some u,
          notes, "DELIVERY", none⟩] := by
  refine ⟨?_, ?_, ?_⟩
  · simp [confirm_create_order, h]
  · simp [create_order, insert_order_lines, Session.commit]
  · simp [create_order, insert_order_lines, execInsertOrder, Session.commit]

/-- C4 witness: the amended statement evaluated on the sample state. -/
theorem C4_delivery_address_checked_only_in_ui_witness :
    confirm_create_order sampleSession (some 1) [(1, 1)] "Bob" "DELIVERY" "  "
      = (.addressRequired, sampleSession) :=
  (C4_delivery_address_checked_only_in_ui sampleSession (some 1) [(1, 1)] "Bob" "  "
    rfl 1 "Bob" "" "").1

/-- C7 counterexample: `add_menu_item` with a negative price DOES issue the
`INSERT` to the store (the statement is in the session log) and the failure
is the store's `CHECK (price >= 0)` violation, not a Python-side validation
raised before reaching storage. -/
theorem C7_negative_price_write_reaches_store :
    (add_menu_item sampleSession "Cake" (-1) 1 true).1 = .error (.checkViolation "price") ∧
    (add_menu_item sampleSession "Cake" (-1) 1 true).2.log
      = [.insertMenuItem "Cake" (-1) 1 true] :=
  ⟨rfl, rfl⟩

/-- C7 (amended): a negative price always causes the write to fail — but at
the store's `CHECK (price >= 0)` constraint after the statement is issued,
not before.  No menu-item row is created or modified: `add_menu_item`
returns the check-violation error with the store unchanged, and
`update_menu_item` leaves the store unchanged, returning the
check-violation error whenever the item id exists. -/
theorem C7_negative_price_rejected_by_store_check (s : Session) (name : String)
    (price : Int) (category_id item_id : Nat) (is_active : Bool) (hneg : price < 0) :
    ((add_menu_item s name price category_id is_active).1
        = .error (.checkViolation "price") ∧
     (add_menu_item s name price category_id is_active).2.pending = s.pending ∧
     (add_menu_item s name price category_id is_active).2.committed = s.committed) ∧
    ((update_menu_item s item_id name price category_id is_active).2.pending = s.pending ∧
     ((s.pending.menu_items.any (fun m => m.item_id == item_id)) = true →
       (update_menu_item s item_id name price category_id is_active).1
         = .error (.checkViolation "price") ∧
       (update_menu_item s item_id name price category_id is_active).2.committed
         = s.committed)) := by
  have ha : execInsertMenuItem s.pending name price category_id is_active
      = .error (.checkViolation "price") := by
    unfold execInsertMenuItem
    rw [if_pos hneg]
  refine ⟨⟨?_, ?_, ?_⟩, ?_⟩
  · simp [add_menu_item, ha]
  · simp [add_menu_item, ha]
  · simp [add_menu_item, ha]
  · by_cases hex : (s.pending.menu_items.any (fun m => m.item_id == item_id)) = true
    · have hu : execUpdateMenuItem s.pending item_id name price category_id is_active
          = .error (.checkViolation "price") := by
        unfold execUpdateMenuItem
        rw [if_pos hex, if_pos hneg]
      refine ⟨by simp [update_menu_item, hu], fun _ => ⟨by simp [update_menu_item, hu],
        by simp [update_menu_item, hu]⟩⟩
    · have hu : execUpdateMenuItem s.pending item_id name price category_id is_active
          = .ok s.pending := by
        unfold execUpdateMenuItem
        rw [if_neg hex]
      exact ⟨by simp [update_menu_item, hu, Session.commit], fun hx => absurd hx hex⟩

/-- C7 witness: the amended statement evaluated at price −1 on the sample
state. -/
theorem C7_negative_price_rejected_by_store_check_witness :
    (add_menu_item sampleSession "Cake" (-1) 1 true).1 = .error (.checkViolation "price") :=
  (C7_negative_price_rejected_by_store_check sampleSession "Cake" (-1) 1 1 true
    (by decide)).1.1

/-- C10: `delete_category` and `delete_menu_item_by_id` called with an id
matching no existing row complete successfully (the zero-row `DELETE` raises
nothing) and leave the store unchanged (the commit re-commits the unchanged
pending state). -/
theorem C10_delete_missing_id_succeeds_unchanged (s : Session) (category_id item_id : Nat)
    (hc : (s.pending.categories.any (fun c => c.category_id == category_id)) = false)
    (hi : (s.pending.menu_items.any (fun m => m.item_id == item_id)) = false) :
    ((delete_category s category_id).1 = .ok () ∧
     (delete_category s category_id).2.pending = s.pending ∧
     (delete_category s category_id).2.committed = s.pending) ∧
    ((delete_menu_item_by_id s item_id).1 = .ok () ∧
     (delete_menu_item_by_id s item_id).2.pending = s.pending ∧
     (delete_menu_item_by_id s item_id).2.committed = s.pending) := by
  have hfc : s.pending.categories.filter (fun c => c.category_id != category_id)
      = s.pending.categories := by
    apply List.filter_eq_self.mpr
    intro a ha
    have := List.any_eq_false.mp hc a ha
    simp only [bne, Bool.not_eq_true'] at *
    simp [this]
  have hfi : s.pending.menu_items.filter (fun m => m.item_id != item_id)
      = s.pending.menu_items := by
    apply List.filter_eq_self.mpr
    intro a ha
    have := List.any_eq_false.mp hi a ha
    simp only [bne, Bool.not_eq_true'] at *
    simp [this]
  have h1 : execDeleteCategory s.pending category_id = .ok s.pending := by
    unfold execDeleteCategory
    rw [hc]
    simp [hfc]
  have h2 : execDeleteMenuItem s.pending item_id = .ok s.pending := by
    unfold execDeleteMenuItem
    rw [hi]
    simp [hfi]
  exact ⟨⟨by simp [delete_category, h1], by simp [delete_category, h1, Session.commit],
          by simp [delete_category, h1, Session.commit]⟩,
         ⟨by simp [delete_menu_item_by_id, h2],
          by simp [delete_menu_item_by_id, h2, Session.commit],
          by simp [delete_menu_item_by_id, h2, Session.commit]⟩⟩

/-- C10 witness: deleting nonexistent category 5 on the sample state. -/
theorem C10_delete_missing_id_succeeds_unchanged_witness :
    (delete_category sampleSession 5).1 = .ok () :=
  (C10_delete_missing_id_succeeds_unchanged sampleSession 5 7 rfl rfl).1.1

/-- C8: `create_user` always fails with a `ValueError` for role admin (the
session untouched, no statement issued); with role user it fails with the
distinguishable USERNAME_TAKEN error when the username already exists; on
success it persists the bcrypt hash of the secret — a `hashed` value,
never the plain secret. -/
theorem C8_create_user_guards (s : Session) (username password : String) (salt : Nat) :
    (create_user s username password "admin" salt
      = (.error (.valueError "Creating additional admins is not allowed."), s)) ∧
    ((s.pending.users.any (fun u => u.username == username)) = true →
      (create_user s username password "user" salt).1 = .error (.valueError "USERNAME_TAKEN")) ∧
    ((s.pending.users.any (fun u => u.username == username)) = false →
      (create_user s username password "user" salt).1 = .ok s.pending.next_user_id ∧
      (create_user s username password "user" salt).2.committed.users
        = s.pending.users ++ [⟨s.pending.next_user_id, username, .hashed password salt, "user"⟩] ∧
      (StoredSecret.hashed password salt) ≠ .plain password) := by
  refine ⟨?_, ?_, ?_⟩
  · simp [create_user]
  · intro hdup
    have he : execInsertUser s.pending username (.hashed password salt) "user"
        = .error (.integrityError 1062) := by
      unfold execInsertUser
      simp [hdup]
    simp [create_user, he]
  · intro hnew
    have he : execInsertUser s.pending username (.hashed password salt) "user"
        = .ok { s.pending with
            users := s.pending.users ++
              [⟨s.pending.next_user_id, username, .hashed password salt, "user"⟩],
            next_user_id := s.pending.next_user_id + 1 } := by
      unfold execInsertUser
      simp [hnew]
    refine ⟨by simp [create_user, he], by simp [create_user, he, Session.commit], by simp⟩

/-- C8 witness: registering a fresh username on the sample state. -/
theorem C8_create_user_guards_witness :
    (create_user sampleSession "bob" "secret" "user" 0).1 = .ok 2 :=
  ((C8_create_user_guards sampleSession "bob" "secret" 0).2.2 rfl).1

/-- C9: for target status CANCELED, `update_order_status` checks the
current status only against the two terminal codes and never consults
`STATUS_FLOW`, so it succeeds for every stored status other than COMPLETED
and CANCELED — including codes outside the five-value vocabulary. -/
theorem C9_cancel_target_checks_only_terminals (s : Session) (order_id : Nat) (o : OrderRow)
    (hfind : s.pending.orders.find? (fun x => x.order_id == order_id) = some o)
    (h1 : o.status_code ≠ "COMPLETED") (h2 : o.status_code ≠ "CANCELED") :
    (update_order_status s order_id "CANCELED").1 = .ok () ∧
    (update_order_status s order_id "CANCELED").2.pending
      = execUpdateOrderStatus s.pending order_id "CANCELED" ∧
    (update_order_status s order_id "CANCELED").2.committed
      = execUpdateOrderStatus s.pending order_id "CANCELED" := by
  have hb1 : (o.status_code == "COMPLETED") = false := by simp [h1]
  have hb2 : (o.status_code == "CANCELED") = false := by simp [h2]
  refine ⟨?_, ?_, ?_⟩ <;> simp [update_order_status, hfind, hb1, hb2, Session.commit]

/-- C9 witness: canceling an order whose stored status is the
out-of-vocabulary code WEIRD succeeds. -/
theorem C9_cancel_target_checks_only_terminals_witness :
    (update_order_status weirdSession 1 "CANCELED").1 = .ok () :=
  (C9_cancel_target_checks_only_terminals weirdSession 1 weirdRow1 rfl
    (by decide) (by decide)).1

/-- C6: `cancel_order_by_user` fails with ORDER_NOT_FOUND on a missing id;
with a permission error for a non-owner (checked first, session unchanged);
with CANNOT_CANCEL_THIS_STATUS for an owner when the status is outside
RECEIVED/IN_PROGRESS/READY; and succeeds for an owner on those three
statuses, setting the status to CANCELED and committing. -/
theorem C6_cancel_order_by_user_rules (s : Session) (order_id requester : Nat) :
    (s.pending.orders.find? (fun o => o.order_id == order_id) = none →
      cancel_order_by_user s order_id requester = (.error (.valueError "ORDER_NOT_FOUND"), s)) ∧
    (∀ o, s.pending.orders.find? (fun x => x.order_id == order_id) = some o →
      o.user_id ≠ some requester →
      cancel_order_by_user s order_id requester
        = (.error (.permissionError "You can cancel only your own orders."), s)) ∧
    (∀ o, s.pending.orders.find? (fun x => x.order_id == order_id) = some o →
      o.user_id = some requester →
      o.status_code ≠ "RECEIVED" → o.status_code ≠ "IN_PROGRESS" → o.status_code ≠ "READY" →
      cancel_order_by_user s order_id requester
        = (.error (.valueError "CANNOT_CANCEL_THIS_STATUS"), s)) ∧
    (∀ o, s.pending.orders.find? (fun x => x.order_id == order_id) = some o →
      o.user_id = some requester →
      (o.status_code = "RECEIVED" ∨ o.status_code = "IN_PROGRESS" ∨ o.status_code = "READY") →
      (cancel_order_by_user s order_id requester).1 = .ok () ∧
      (cancel_order_by_user s order_id requester).2.pending
        = execUpdateOrderStatus s.pending order_id "CANCELED" ∧
      (cancel_order_by_user s order_id requester).2.committed
        = execUpdateOrderStatus s.pending order_id "CANCELED") := by
  refine ⟨?_, ?_, ?_, ?_⟩
  · intro h
    simp [cancel_order_by_user, h]
  · intro o hfind howner
    simp [cancel_order_by_user, hfind, bne_iff_ne, howner]
  · intro o hfind howner h1 h2 h3
    have hb1 : (o.status_code == "RECEIVED") = false := by simp [h1]
    have hb2 : (o.status_code == "IN_PROGRESS") = false := by simp [h2]
    have hb3 : (o.status_code == "READY") = false := by simp [h3]
    simp [cancel_order_by_user, hfind, howner, hb1, hb2, hb3]
  · intro o hfind howner hst
    rcases hst with h | h | h <;>
      refine ⟨?_, ?_, ?_⟩ <;>
        simp [cancel_order_by_user, hfind, howner, h, Session.commit]

/-- C6 witness: the owner cancels their RECEIVED order on the sample
order state. -/
theorem C6_cancel_order_by_user_rules_witness :
    (cancel_order_by_user orderSession 1 1).1 = .ok () :=
  ((C6_cancel_order_by_user_rules orderSession 1 1).2.2.2 orderRow1 rfl rfl (Or.inl rfl)).1

/-- C5: `replace_order_items` fails with ORDER_NOT_FOUND on a missing id;
with a permission error whenever the requester is not the owner — the
session, and hence the original line items, unchanged (permission is
checked before the state check); and with ONLY_RECEIVED_EDITABLE for the
owner whenever the status is not RECEIVED. -/
theorem C5_replace_order_items_guards (s : Session) (order_id requester : Nat)
    (items : List (Nat × Int)) :
    (s.pending.orders.find? (fun o => o.order_id == order_id) = none →
      replace_order_items s order_id items requester
        = (.error (.valueError "ORDER_NOT_FOUND"), s)) ∧
    (∀ o, s.pending.orders.find? (fun x => x.order_id == order_id) = some o →
      o.user_id ≠ some requester →
      replace_order_items s order_id items requester
        = (.error (.permissionError "You can edit only your own orders."), s)) ∧
    (∀ o, s.pending.orders.find? (fun x => x.order_id == order_id) = some o →
      o.user_id = some requester → o.status_code ≠ "RECEIVED" →
      replace_order_items s order_id items requester
        = (.error (.valueError "ONLY_RECEIVED_EDITABLE"), s)) := by
  refine ⟨?_, ?_, ?_⟩
  · intro h
    simp [replace_order_items, h]
  · intro o hfind howner
    simp [replace_order_items, hfind, bne_iff_ne, howner]
  · intro o hfind howner hst
    have hb : (o.status_code == "RECEIVED") = false := by simp [hst]
    simp [replace_order_items, hfind, howner, hb, hst]

/-- C5 witness: user 2 attempts to edit user 1's RECEIVED order — the
permission error is returned and the session (so the original lines) is
unchanged. -/
theorem C5_replace_order_items_guards_witness :
    replace_order_items orderSession 1 [(2, 3)] 2
      = (.error (.permissionError "You can edit only your own orders."), orderSession) :=
  (C5_replace_order_items_guards orderSession 1 2 [(2, 3)]).2.1 orderRow1 rfl (by decide)

/-- C2: for an order whose stored status is one of the five canonical
codes, `update_order_status` succeeds exactly when the target is in the
legal-next-status set of the current status (RECEIVED→IN_PROGRESS,
IN_PROGRESS→READY, READY→COMPLETED, plus CANCELED from each of the three
non-terminal statuses); every other target — re-entering a state, skipping
a stage, or leaving COMPLETED/CANCELED — fails with INVALID_TRANSITION,
and a nonexistent order id fails with ORDER_NOT_FOUND. -/
theorem C2_update_order_status_transitions (s : Session) (order_id : Nat) (target : String) :
    (s.pending.orders.find? (fun o => o.order_id == order_id) = none →
      update_order_status s order_id target = (.error (.valueError "ORDER_NOT_FOUND"), s)) ∧
    (∀ o, s.pending.orders.find? (fun x => x.order_id == order_id) = some o →
      canonical_status o.status_code →
      (((update_order_status s order_id target).1 = .ok ()
          ↔ ((get_next_statuses o.status_code).contains target) = true) ∧
       (((get_next_statuses o.status_code).contains target) = false →
         update_order_status s order_id target
           = (.error (.valueError "INVALID_TRANSITION"), s)) ∧
       (((get_next_statuses o.status_code).contains target) = true →
         (update_order_status s order_id target).2.pending
           = execUpdateOrderStatus s.pending order_id target ∧
         (update_order_status s order_id target).2.committed
           = execUpdateOrderStatus s.pending order_id target))) := by
  constructor
  · intro h
    simp [update_order_status, h]
  · intro o hfind hc
    by_cases hT : target = "CANCELED"
    · subst hT
      rcases hc with h | h | h | h | h <;>
        simp [update_order_status, hfind, h, get_next_statuses, STATUS_FLOW, Session.commit]
    · have hbT : (target == "CANCELED") = false := by simp [hT]
      by_cases hcon : target ∈ get_next_statuses o.status_code <;>
        simp [update_order_status, hfind, hbT, hcon, Session.commit]

/-- C2 witness: advancing the RECEIVED sample order to IN_PROGRESS
succeeds. -/
theorem C2_update_order_status_transitions_witness :
    (update_order_status orderSession 1 "IN_PROGRESS").1 = .ok () :=
  (((C2_update_order_status_transitions orderSession 1 "IN_PROGRESS").2 orderRow1 rfl
    (Or.inl rfl)).1).mpr rfl

/-- Inserting a row into a name-sorted list yields a permutation of
consing it. -/
theorem perm_insertRowByName (r : ItemLine) (l : List ItemLine) :
    (insertRowByName r l).Perm (r :: l) := by
  induction l with
  | nil => exact List.Perm.refl _
  | cons x xs ih =>
    unfold insertRowByName
    split
    · exact List.Perm.refl _
    · exact (ih.cons x).trans (List.Perm.swap r x xs)

/-- The name sort returns a permutation of its input. -/
theorem perm_sortRowsByName (l : List ItemLine) : (sortRowsByName l).Perm l := by
  induction l with
  | nil => exact List.Perm.refl _
  | cons x xs ih => exact (perm_insertRowByName x (sortRowsByName xs)).trans (ih.cons x)

/-- Sorting by name does not change the sum of subtotals. -/
theorem sum_map_sortRowsByName (l : List ItemLine) :
    ((sortRowsByName l).map (fun r => r.2.2.2)).sum = (l.map (fun r => r.2.2.2)).sum :=
  ((perm_sortRowsByName l).map _).sum_eq

/-- When every line's item id matches exactly one catalog row, the summed
subtotals of the inner join equal the sum of `quantity * price_at_order`
over the lines (the subtotal of a joined row never reads the live catalog
price). -/
theorem sum_join_lines (mis : List MenuItemRow) (L : List OrderItemRow)
    (h : ∀ oi ∈ L, (mis.filter (fun mi => mi.item_id == oi.item_id)).length = 1) :
    ((L.flatMap (fun oi => (mis.filter (fun mi => mi.item_id == oi.item_id)).map
        (fun mi => ((mi.name, oi.quantity, oi.price_at_order,
          oi.quantity * oi.price_at_order) : ItemLine)))).map
      (fun r : ItemLine => r.2.2.2)).sum
      = (L.map (fun oi => oi.quantity * oi.price_at_order)).sum := by
  induction L with
  | nil => rfl
  | cons oi L ih =>
    obtain ⟨mi, hmi⟩ := List.length_eq_one.mp (h oi (List.mem_cons_self oi L))
    have ih2 := ih (fun x hx => h x (List.mem_cons_of_mem oi hx))
    simp only [List.flatMap_cons, hmi, List.map_cons, List.map_nil, List.map_append,
      List.sum_append, List.sum_cons, List.sum_nil, List.nil_append]
    rw [ih2]
    ring

/-- C1: the total reported by `get_order_items` and every total exposed by
the `v_order_totals` view equal the sum of `quantity * price_at_order`
over the order's current line items, and `update_menu_item` — in
particular a price change — leaves every `OrderItems` row, hence every
such total, unchanged.  The hypothesis says each line's item id matches
exactly one catalog row (primary key plus `ON DELETE RESTRICT`). -/
theorem C1_totals_are_snapshot_sums (s : Session) (order_id : Nat)
    (hwf : ∀ oi ∈ s.pending.order_items,
      ((s.pending.menu_items.filter (fun mi => mi.item_id == oi.item_id)).length = 1)) :
    (get_order_items s.pending order_id).2 = line_total s.pending order_id ∧
    (∀ p ∈ v_order_totals s.pending, p.2 = line_total s.pending p.1) ∧
    (∀ item_id new_name new_price new_category_id is_active,
      (update_menu_item s item_id new_name new_price new_category_id
          is_active).2.pending.order_items = s.pending.order_items ∧
      (∀ oid2, line_total
          (update_menu_item s item_id new_name new_price new_category_id is_active).2.pending
          oid2
        = line_total s.pending oid2)) := by
  refine ⟨?_, ?_, ?_⟩
  · have hflt : ∀ oi ∈ (s.pending.order_items.filter (fun oi => oi.order_id == order_id)),
        ((s.pending.menu_items.filter (fun mi => mi.item_id == oi.item_id)).length = 1) :=
      fun oi hoi => hwf oi (List.mem_of_mem_filter hoi)
    simp only [get_order_items]
    rw [sum_map_sortRowsByName, sum_join_lines _ _ hflt]
    rfl
  · intro p hp
    unfold v_order_totals at hp
    obtain ⟨o, _, rfl⟩ := List.mem_map.mp hp
    rfl
  · intro item_id new_name new_price new_category_id is_active
    have hkey : (update_menu_item s item_id new_name new_price new_category_id
        is_active).2.pending.order_items = s.pending.order_items := by
      unfold update_menu_item
      cases he : execUpdateMenuItem s.pending item_id new_name new_price new_category_id
          is_active with
      | error e => simp [he]
      | ok db2 => simp [he, Session.commit, execUpdateMenuItem_ok_order_items he]
    refine ⟨hkey, fun oid2 => ?_⟩
    unfold line_total
    rw [hkey]

/-- C1 witness: on the sample order state the reported total of order 1 is
the snapshot sum 2·790 + 1·180. -/
theorem C1_totals_are_snapshot_sums_witness :
    (get_order_items orderSession.pending 1).2 = line_total orderSession.pending 1 :=
  (C1_totals_are_snapshot_sums orderSession 1 (by decide)).1

end Restaurant
